import Mathlib

/-!
Verification of the Parrot recording-to-transcription pipeline.

Each definition below is a shallow embedding of a function of the
repository (main-process services: wav encoder, audio capture service,
IPC handlers, clipboard manager, transcription manager, history
database).  Buffers are modelled as lists of bytes (`List Nat`),
JavaScript numbers that can be fractional as `ℚ`, maps as association
lists with JavaScript `Map` update semantics, and fallible calls as
`Except String`.
-/

namespace Parrot

/-! ### WAV encoder (`src/main/services/wav-encoder.ts`, `encodeWav`) -/

/-- Little-endian 16-bit write, as `Buffer.writeUInt16LE` lays out bytes. -/
def writeUInt16LE (v : Nat) : List Nat :=
  [v % 256, v / 256 % 256]

/-- Little-endian 32-bit write, as `Buffer.writeUInt32LE` lays out bytes. -/
def writeUInt32LE (v : Nat) : List Nat :=
  [v % 256, v / 256 % 256, v / 65536 % 256, v / 16777216 % 256]

/-- Little-endian 32-bit read back from four bytes (used to inspect header fields). -/
def readUInt32LE (l : List Nat) : Nat :=
  match l with
  | [b0, b1, b2, b3] => b0 + 256 * b1 + 65536 * b2 + 16777216 * b3
  | _ => 0

/-- Embedding of `encodeWav(audioBuffer, sampleRate, channels, bitsPerSample)`:
a 44-byte RIFF/WAVE header followed by the untouched PCM payload.  The byte
values 82,73,70,70 / 87,65,86,69 / 102,109,116,32 / 100,97,116,97 are the
ASCII strings RIFF, WAVE, fmt-space and data written by `buffer.write`. -/
def encodeWav (audioBuffer : List Nat) (sampleRate : Nat) (channels : Nat)
    (bitsPerSample : Nat) : List Nat :=
  let dataLength := audioBuffer.length
  let totalLength := 44 + dataLength
  [82, 73, 70, 70]
    ++ writeUInt32LE (totalLength - 8)
    ++ [87, 65, 86, 69]
    ++ [102, 109, 116, 32]
    ++ writeUInt32LE 16
    ++ writeUInt16LE 1
    ++ writeUInt16LE channels
    ++ writeUInt32LE sampleRate
    ++ writeUInt32LE (sampleRate * channels * bitsPerSample / 8)
    ++ writeUInt16LE (channels * bitsPerSample / 8)
    ++ writeUInt16LE bitsPerSample
    ++ [100, 97, 116, 97]
    ++ writeUInt32LE dataLength
    ++ audioBuffer

/-- The first 40 header bytes of the encoder output, before the data-size
field and the payload; used only to split `encodeWav` for the proofs. -/
def wavHeader40 (sampleRate channels bitsPerSample dataLength : Nat) : List Nat :=
  [82, 73, 70, 70]
    ++ writeUInt32LE (44 + dataLength - 8)
    ++ [87, 65, 86, 69]
    ++ [102, 109, 116, 32]
    ++ writeUInt32LE 16
    ++ writeUInt16LE 1
    ++ writeUInt16LE channels
    ++ writeUInt32LE sampleRate
    ++ writeUInt32LE (sampleRate * channels * bitsPerSample / 8)
    ++ writeUInt16LE (channels * bitsPerSample / 8)
    ++ writeUInt16LE bitsPerSample
    ++ [100, 97, 116, 97]

lemma encodeWav_split (buf : List Nat) (s c b : Nat) :
    encodeWav buf s c b = wavHeader40 s c b buf.length ++ (writeUInt32LE buf.length ++ buf) := by
  simp [encodeWav, wavHeader40, List.append_assoc]

lemma wavHeader40_length (s c b d : Nat) : (wavHeader40 s c b d).length = 40 := by
  simp [wavHeader40, writeUInt32LE, writeUInt16LE]

lemma readUInt32LE_writeUInt32LE (v : Nat) (h : v < 2 ^ 32) :
    readUInt32LE (writeUInt32LE v) = v := by
  simp only [writeUInt32LE, readUInt32LE]
  omega

/-- C4: encodeWav is deterministic, its header is exactly 44 bytes, the
data-size field at offset 40 records the payload length, and the bytes after
the header are the untouched input PCM payload (payload length below the
32-bit limit of the header fields). -/
theorem C4_encodeWav_pure_header44_dataSize (buf : List Nat) (h : buf.length < 2 ^ 32) :
    encodeWav buf 16000 1 16 = encodeWav buf 16000 1 16 ∧
    (encodeWav buf 16000 1 16).length = 44 + buf.length ∧
    readUInt32LE (((encodeWav buf 16000 1 16).drop 40).take 4) = buf.length ∧
    (encodeWav buf 16000 1 16).drop 44 = buf := by
  refine ⟨rfl, ?_, ?_, ?_⟩
  · rw [encodeWav_split]
    simp only [List.length_append, wavHeader40_length, writeUInt32LE, List.length_cons,
      List.length_nil]
    omega
  · rw [encodeWav_split]
    rw [show (40 : Nat) = (wavHeader40 16000 1 16 buf.length).length + 0 by
      rw [wavHeader40_length]]
    rw [List.drop_append, List.drop_zero]
    rw [List.take_append_of_le_length (by simp [writeUInt32LE])]
    rw [show List.take 4 (writeUInt32LE buf.length) = writeUInt32LE buf.length by
      simp [writeUInt32LE]]
    exact readUInt32LE_writeUInt32LE _ h
  · rw [encodeWav_split]
    rw [show (44 : Nat) = (wavHeader40 16000 1 16 buf.length).length + 4 by
      rw [wavHeader40_length]]
    rw [List.drop_append]
    rw [show (4 : Nat) = (writeUInt32LE buf.length).length + 0 by simp [writeUInt32LE]]
    rw [List.drop_append, List.drop_zero]

/-- Witness for C4 at the concrete two-byte buffer `[1, 2]`. -/
theorem C4_witness :
    ([1, 2] : List Nat).length < 2 ^ 32 ∧
    (encodeWav [1, 2] 16000 1 16).length = 44 + ([1, 2] : List Nat).length ∧
    (encodeWav [1, 2] 16000 1 16).drop 44 = [1, 2] := by
  have h := C4_encodeWav_pure_header44_dataSize [1, 2] (by decide)
  exact ⟨by decide, h.2.1, h.2.2.2⟩

/-! ### Audio capture service (`src/main/services/audio.ts`, `AudioService`) -/

/-- Mutable fields of `AudioService`: `chunks`, `isRecording`, and whether
`audioIO` is non-null; `sampleRate` comes from the config (default 16000). -/
structure AudioState where
  chunks : List (List Nat)
  isRecording : Bool
  audioOpen : Bool
  sampleRate : Nat
  deriving DecidableEq, Repr

/-- Events emitted by `AudioService` (`started`, `stopped`, `cancelled`,
`error`; `level` events are keyed to data arrival and not needed here). -/
inductive AudioEvent where
  | started
  | errored
  deriving DecidableEq, Repr

/-- Embedding of the `data` callback registered in `startRecording`:
`this.chunks.push(chunk)`. -/
def onData (st : AudioState) (chunk : List Nat) : AudioState :=
  { st with chunks := st.chunks ++ [chunk] }

/-- Embedding of the private `cleanup()`: closes the device, clears
`isRecording` and resets `chunks` to the empty array. -/
def cleanup (st : AudioState) : AudioState :=
  { st with audioOpen := false, isRecording := false, chunks := [] }

/-- Embedding of `Buffer.concat` on the chunk array. -/
def bufferConcat (chunks : List (List Nat)) : List Nat :=
  chunks.foldr (· ++ ·) []

/-- Embedding of `startRecording()`.  When already recording it logs a
warning and returns without emitting anything or changing state.  Otherwise
it resets the chunk array, sets `isRecording`, and opens the device; the
parameter `openSucceeds` stands for whether the `AudioIO` construction and
start throw (the `catch` branch resets `isRecording` and emits `error`). -/
def startRecording (st : AudioState) (openSucceeds : Bool) :
    AudioState × List AudioEvent :=
  if st.isRecording then
    (st, [])
  else
    let st1 := { st with chunks := [], isRecording := true }
    if openSucceeds then
      ({ st1 with audioOpen := true }, [AudioEvent.started])
    else
      ({ st1 with isRecording := false }, [AudioEvent.errored])

/-- Embedding of `stopRecording()`.  It throws when not recording; otherwise
it runs `cleanup()` first and only then reads `this.chunks` to build the
returned buffer and the duration `(length / 2) / sampleRate * 1000`
(samples are 2 bytes each).  The returned triple is the post-call state,
the returned buffer, and the duration attached to the `stopped` event. -/
def stopRecording (st : AudioState) : Except String (AudioState × List Nat × ℚ) :=
  if st.isRecording = false then
    Except.error "Not recording"
  else
    let st1 := cleanup st
    let audioBuffer := bufferConcat st1.chunks
    let duration := ((audioBuffer.length : ℚ) / 2) / (st.sampleRate : ℚ) * 1000
    Except.ok (st1, audioBuffer, duration)

/-- Result shape of an IPC handler: the `success` flag and optional error. -/
structure IpcResult where
  success : Bool
  error : Option String
  deriving DecidableEq, Repr

/-- Embedding of the `audio:start` IPC handler: it calls
`audio.startRecording()` inside try/catch; since `startRecording` swallows
its own exceptions, the handler always reports success and sends the
`recording` state. -/
def ipcAudioStart (st : AudioState) (openSucceeds : Bool) : AudioState × IpcResult :=
  let r := startRecording st openSucceeds
  (r.1, { success := true, error := none })

/-- C1: the code slip in `stopRecording` — `cleanup()` clears `this.chunks`
before `Buffer.concat(this.chunks)` runs, so a session that received the
chunks `[1, 2]` and `[3, 4]` returns an empty buffer and duration 0 instead
of their concatenation `[1, 2, 3, 4]` (2 samples, 0.125 ms at 16 kHz). -/
theorem C1_stopRecording_returns_empty_buffer :
    stopRecording (onData (onData ⟨[], true, true, 16000⟩ [1, 2]) [3, 4]) =
      Except.ok (⟨[], false, false, 16000⟩, ([] : List Nat), (0 : ℚ)) ∧
    bufferConcat (onData (onData ⟨[], true, true, 16000⟩ [1, 2]) [3, 4]).chunks =
      [1, 2, 3, 4] ∧
    ([] : List Nat) ≠ [1, 2, 3, 4] := by
  refine ⟨?_, by decide, by decide⟩
  simp only [stopRecording, onData, cleanup, bufferConcat]
  norm_num

/-- C3 counterexample: `startRecording` while a session is active is
silently ignored, not rejected — the state is returned unchanged, no event
is emitted, and the `audio:start` IPC handler reports success rather than
an AlreadyRecording failure. -/
theorem C3_counterexample :
    startRecording ⟨[[1, 2]], true, true, 16000⟩ true = (⟨[[1, 2]], true, true, 16000⟩, []) ∧
    ipcAudioStart ⟨[[1, 2]], true, true, 16000⟩ true =
      (⟨[[1, 2]], true, true, 16000⟩, { success := true, error := none }) := by
  constructor <;> rfl

/-- C3 as amended: calling `startRecording` while a capture session is
active leaves the service state exactly unchanged (so it remains
recording), emits no event, and the IPC `audio:start` handler reports
success; the call is silently ignored instead of failing. -/
theorem C3_start_while_recording_is_noop (st : AudioState) (openSucceeds : Bool)
    (h : st.isRecording = true) :
    startRecording st openSucceeds = (st, []) ∧
    (ipcAudioStart st openSucceeds).1.isRecording = true ∧
    (ipcAudioStart st openSucceeds).2 = { success := true, error := none } := by
  refine ⟨?_, ?_, ?_⟩ <;> simp [startRecording, ipcAudioStart, h]

/-- Witness for the amended C3 at a concrete recording state. -/
theorem C3_witness :
    (⟨[[1, 2]], true, true, 16000⟩ : AudioState).isRecording = true ∧
    startRecording ⟨[[1, 2]], true, true, 16000⟩ false = (⟨[[1, 2]], true, true, 16000⟩, []) := by
  exact ⟨rfl, (C3_start_while_recording_is_noop ⟨[[1, 2]], true, true, 16000⟩ false rfl).1⟩

/-! ### The `audio:stop` IPC handler (`src/main/ipc.ts`) -/

/-- Outcome flags of each fallible sub-step of the `audio:stop` handler,
abstracting the try/catch control flow: whether `audio.stopRecording()`
throws, whether `transcription.isConfigured()`, whether a stored API key is
present for lazy configuration, whether `transcribe` throws, whether
`database.insert` throws, the `autoCopy`/`autoPaste` config flags, and
whether the synthetic paste throws (e.g. xdotool missing). -/
structure StopEnv where
  stopThrows : Bool
  isConfigured : Bool
  apiKeyPresent : Bool
  transcribeThrows : Bool
  insertThrows : Bool
  autoCopy : Bool
  autoPaste : Bool
  pasteThrows : Bool
  deriving DecidableEq, Repr

/-- Observable outcome of one `audio:stop` invocation: the sequence of
`recording:state` messages sent, the number of `error` messages sent,
whether the history insert took effect, and the returned success flag. -/
structure StopOutcome where
  states : List String
  errors : Nat
  inserted : Bool
  success : Bool
  deriving DecidableEq, Repr

/-- Embedding of the `audio:stop` handler body.  The steps run in source
order inside one try/catch: stopRecording, send processing, lazy backend
configuration (throws when no API key is stored), transcribe, insert into
history, auto-copy, auto-paste (`copyAndPaste`), send result and complete.
Any throw jumps to the catch block, which sends one `error` message and the
`error` state.  An insert that already happened is not rolled back. -/
def audioStopHandler (env : StopEnv) : StopOutcome :=
  if env.stopThrows then
    { states := ["error"], errors := 1, inserted := false, success := false }
  else if env.isConfigured = false ∧ env.apiKeyPresent = false then
    { states := ["processing", "error"], errors := 1, inserted := false, success := false }
  else if env.transcribeThrows then
    { states := ["processing", "error"], errors := 1, inserted := false, success := false }
  else if env.insertThrows then
    { states := ["processing", "error"], errors := 1, inserted := false, success := false }
  else if env.autoPaste ∧ env.pasteThrows then
    { states := ["processing", "error"], errors := 1, inserted := true, success := false }
  else
    { states := ["processing", "complete"], errors := 0, inserted := true, success := true }

/-- C2 counterexample: a cycle in which everything up to persistence
succeeds and then the auto-paste output effect fails.  The pipeline does
transition to `error` with a single error message, but the history insert
has already taken effect and is not rolled back, refuting the claim that no
history entry is ever written for a failed cycle. -/
theorem C2_counterexample :
    audioStopHandler ⟨false, true, true, false, false, false, true, true⟩ =
      { states := ["processing", "error"], errors := 1, inserted := true, success := false } ∧
    (audioStopHandler ⟨false, true, true, false, false, false, true, true⟩).success = false ∧
    (audioStopHandler ⟨false, true, true, false, false, false, true, true⟩).inserted = true := by
  refine ⟨rfl, rfl, rfl⟩

/-- C2 as amended: every failed `audio:stop` cycle ends in the `error`
state with exactly one emitted error message, and no history entry is
written for it unless the failing sub-step is the auto-paste output effect,
which runs only after the insert has already taken effect. -/
theorem C2_stop_failure_funnels_to_error (env : StopEnv)
    (h : (audioStopHandler env).success = false) :
    (audioStopHandler env).states.getLast? = some "error" ∧
    (audioStopHandler env).errors = 1 ∧
    ((audioStopHandler env).inserted = true →
      env.autoPaste = true ∧ env.pasteThrows = true) := by
  rcases env with ⟨s, c, k, t, i, ac, ap, p⟩
  cases s <;> cases c <;> cases k <;> cases t <;> cases i <;> cases ac <;> cases ap <;>
    cases p <;> simp_all [audioStopHandler]

/-- Witness for the amended C2 at the concrete failing transcription cycle. -/
theorem C2_witness :
    (audioStopHandler ⟨false, true, true, true, false, false, false, false⟩).success = false ∧
    (audioStopHandler ⟨false, true, true, true, false, false, false, false⟩).errors = 1 := by
  exact ⟨rfl,
    (C2_stop_failure_funnels_to_error ⟨false, true, true, true, false, false, false, false⟩
      rfl).2.1⟩

/-! ### Clipboard manager (`src/main/services/clipboard.ts`, `ClipboardManager`) -/

/-- The external clipboard plus the manager's one-slot `previousContent`. -/
structure ClipState where
  clipboard : String
  previousContent : String
  deriving DecidableEq, Repr

/-- Embedding of `copy(text)`: snapshot the current clipboard into
`previousContent`, then write `text` to the clipboard. -/
def clipCopy (st : ClipState) (text : String) : ClipState :=
  { clipboard := text, previousContent := st.clipboard }

/-- Embedding of `restorePrevious()`: only when `previousContent` is truthy
(a non-empty string) write it back and clear the slot; otherwise no-op. -/
def restorePrevious (st : ClipState) : ClipState :=
  if st.previousContent ≠ "" then
    { clipboard := st.previousContent, previousContent := "" }
  else
    st

/-- C6 counterexample: when the clipboard was empty before the copy, the
snapshot slot holds the falsy empty string, `restorePrevious` is a no-op,
and the clipboard keeps the copied text instead of its prior value. -/
theorem C6_counterexample :
    (restorePrevious (clipCopy ⟨"", "old"⟩ "abc")).clipboard = "abc" ∧
    (restorePrevious (clipCopy ⟨"", "old"⟩ "abc")).clipboard ≠ ("" : String) := by
  constructor <;> decide

/-- C6 as amended: for every non-empty prior clipboard content, `copy`
followed by `restorePrevious` restores exactly that prior content and
clears the snapshot slot; and `restorePrevious` is a no-op whenever the
slot is empty.  When the prior content is the empty string the restore does
not fire (the slot is falsy), so the copied text stays on the clipboard. -/
theorem C6_copy_restore_roundtrip (st st' : ClipState) (text : String)
    (h : st.clipboard ≠ "") (h' : st'.previousContent = "") :
    (restorePrevious (clipCopy st text)).clipboard = st.clipboard ∧
    (restorePrevious (clipCopy st text)).previousContent = "" ∧
    restorePrevious st' = st' := by
  refine ⟨?_, ?_, ?_⟩ <;> simp [restorePrevious, clipCopy, h, h']

/-- Witness for the amended C6 at concrete clipboard states. -/
theorem C6_witness :
    (⟨"p", "old"⟩ : ClipState).clipboard ≠ "" ∧
    (restorePrevious (clipCopy ⟨"p", "old"⟩ "abc")).clipboard = "p" := by
  exact ⟨by decide, (C6_copy_restore_roundtrip ⟨"p", "old"⟩ ⟨"x", ""⟩ "abc"
    (by decide) rfl).1⟩

/-! ### Transcription manager (`src/main/services/transcription/manager.ts`) -/

/-- Per-request options (`TranscriptionOptions` in `transcription/types.ts`). -/
structure TranscriptionOptions where
  language : Option String
  prompt : Option String
  temperature : Option ℚ
  wordTimestamps : Bool
  deriving DecidableEq, Repr

/-- Mutable fields of an `OpenAITranscriptionService` instance: the API key
held by its client and the selected model; its `name` is the constant
string OpenAI Whisper. -/
structure OpenAIService where
  apiKey : String
  model : String
  deriving DecidableEq, Repr

/-- The `services` map (insertion-ordered, JavaScript `Map` semantics,
modelled as an association list) and the `primaryService` name. -/
structure TranscriptionManager where
  services : List (String × OpenAIService)
  primaryService : String
  deriving DecidableEq, Repr

/-- A fresh `new TranscriptionManager()`: empty map, primary `openai`. -/
def initManager : TranscriptionManager :=
  { services := [], primaryService := "openai" }

/-- Embedding of `Map.prototype.has`. -/
def hasService (tm : TranscriptionManager) (n : String) : Bool :=
  tm.services.any (fun p => p.1 = n)

/-- Embedding of `Map.prototype.get`. -/
def getService (tm : TranscriptionManager) (n : String) : Option OpenAIService :=
  Option.map Prod.snd (tm.services.find? (fun p => p.1 = n))

/-- Embedding of `configureOpenAI(apiKey, model)`: when an `openai` entry
exists it is updated in place (`setApiKey`/`setModel` on the existing
instance, keeping its map position); otherwise a new instance is inserted
under the key `openai`. -/
def configureOpenAI (tm : TranscriptionManager) (apiKey : String) (model : String) :
    TranscriptionManager :=
  if hasService tm "openai" then
    { tm with services := tm.services.map (fun p =>
        if p.1 = "openai" then ("openai", ⟨apiKey, model⟩) else p) }
  else
    { tm with services := tm.services ++ [("openai", ⟨apiKey, model⟩)] }

/-- Embedding of `setPrimaryService(name)`: throws when `name` has no
registered instance, otherwise records it as primary. -/
def setPrimaryService (tm : TranscriptionManager) (n : String) :
    Except String TranscriptionManager :=
  if hasService tm n = false then
    Except.error ("Service " ++ n ++ " not configured")
  else
    Except.ok { tm with primaryService := n }

/-- Embedding of `transcribe(audio, options)`: looks up the primary
service; when it is absent it throws, otherwise it delegates, returning the
delegation target together with the forwarded arguments. -/
def tmTranscribe (tm : TranscriptionManager) (audio : List Nat)
    (options : TranscriptionOptions) :
    Except String (OpenAIService × List Nat × TranscriptionOptions) :=
  match getService tm tm.primaryService with
  | none =>
      Except.error ("Transcription service " ++ tm.primaryService ++ " not configured")
  | some service => Except.ok (service, audio, options)

/-- Embedding of `getAvailableServices()`: the array of map keys. -/
def getAvailableServices (tm : TranscriptionManager) : List String :=
  tm.services.map Prod.fst

/-- Folding a sequence of `configureOpenAI` calls over a manager. -/
def applyConfigs (tm : TranscriptionManager) (cfgs : List (String × String)) :
    TranscriptionManager :=
  cfgs.foldl (fun t c => configureOpenAI t c.1 c.2) tm

lemma configureOpenAI_singleton (v : OpenAIService) (pr : String) (a m : String) :
    configureOpenAI ⟨[("openai", v)], pr⟩ a m = ⟨[("openai", ⟨a, m⟩)], pr⟩ := by
  simp [configureOpenAI, hasService]

lemma applyConfigs_singleton (cfgs : List (String × String)) (v : OpenAIService)
    (pr : String) :
    ∃ w, applyConfigs ⟨[("openai", v)], pr⟩ cfgs = ⟨[("openai", w)], pr⟩ := by
  induction cfgs generalizing v with
  | nil => exact ⟨v, rfl⟩
  | cons c rest ih =>
      simp only [applyConfigs, List.foldl_cons] at ih ⊢
      rw [configureOpenAI_singleton]
      exact ih ⟨c.1, c.2⟩

/-- C7: `configureOpenAI` is an idempotent upsert — after any non-empty
sequence of (re)configurations starting from a fresh manager, the list of
available backend names contains `openai` exactly once. -/
theorem C7_configure_upsert_unique (cfgs : List (String × String)) (h : cfgs ≠ []) :
    (getAvailableServices (applyConfigs initManager cfgs)).count "openai" = 1 := by
  match cfgs, h with
  | c :: rest, _ =>
      have h1 : applyConfigs initManager (c :: rest) =
          applyConfigs ⟨[("openai", ⟨c.1, c.2⟩)], "openai"⟩ rest := by
        simp [applyConfigs, initManager, configureOpenAI, hasService]
      obtain ⟨w, hw⟩ := applyConfigs_singleton rest (⟨c.1, c.2⟩ : OpenAIService) "openai"
      rw [h1, hw]
      simp [getAvailableServices]

/-- Witness for C7 at a concrete two-step reconfiguration sequence. -/
theorem C7_witness :
    ([("k1", "whisper-1"), ("k2", "gpt-4o-transcribe")] : List (String × String)) ≠ [] ∧
    (getAvailableServices
      (applyConfigs initManager [("k1", "whisper-1"), ("k2", "gpt-4o-transcribe")])).count
        "openai" = 1 := by
  exact ⟨by decide,
    C7_configure_upsert_unique [("k1", "whisper-1"), ("k2", "gpt-4o-transcribe")]
      (by decide)⟩

/-- C8: `setPrimaryService(n)` fails with the unconfigured-service error
whenever `n` has no registered instance, and `transcribe` fails with the
not-configured error instead of delegating whenever the primary service
has no registered instance. -/
theorem C8_unconfigured_failures (tm : TranscriptionManager) (n : String)
    (audio : List Nat) (options : TranscriptionOptions) :
    (hasService tm n = false →
      setPrimaryService tm n = Except.error ("Service " ++ n ++ " not configured")) ∧
    (getService tm tm.primaryService = none →
      tmTranscribe tm audio options =
        Except.error ("Transcription service " ++ tm.primaryService ++ " not configured")) := by
  constructor
  · intro h
    simp [setPrimaryService, h]
  · intro h
    simp [tmTranscribe, h]

/-- Witness for C8 on the fresh manager, where nothing is configured. -/
theorem C8_witness :
    hasService initManager "cloud" = false ∧
    getService initManager "openai" = none ∧
    setPrimaryService initManager "cloud" =
      Except.error "Service cloud not configured" ∧
    tmTranscribe initManager [1, 2] ⟨none, none, none, false⟩ =
      Except.error "Transcription service openai not configured" := by
  have h := C8_unconfigured_failures initManager "cloud" [1, 2] ⟨none, none, none, false⟩
  exact ⟨by decide, by decide, h.1 (by decide), h.2 (by decide)⟩

/-! ### History database (`src/main/services/database.ts`, `TranscriptionDatabase`)

The SQLite schema is modelled directly: the `transcriptions` table as a
list of rows, the `transcriptions_fts` FTS5 index as a list of
(rowid, text) documents, the AUTOINCREMENT counter, and a monotonic clock
standing for `CURRENT_TIMESTAMP`.  The `AFTER INSERT` / `AFTER DELETE`
triggers run inside the same statement as the table change, so each
modelled operation updates table and index together, which is exactly the
transactional-consistency guarantee the triggers provide. -/

/-- A `transcriptions` row (`StoredTranscription`). -/
structure Row where
  id : Nat
  text : String
  language : String
  duration : Int
  service : String
  createdAt : Nat
  deriving DecidableEq, Repr

/-- A `TranscriptionResult` as far as the database consumes it: `text`,
`language` and the possibly fractional millisecond `duration` (a JavaScript
number, modelled as `ℚ`); segments and words are not persisted. -/
structure TranscriptionResult where
  text : String
  language : String
  duration : ℚ
  deriving DecidableEq, Repr

/-- Database state: table, FTS index, AUTOINCREMENT counter, clock. -/
structure DB where
  rows : List Row
  fts : List (Nat × String)
  nextId : Nat
  clock : Nat
  deriving DecidableEq, Repr

/-- JavaScript `Math.round`: round half towards positive infinity. -/
def jsRound (x : ℚ) : Int := ⌊x + 1 / 2⌋

/-- Newest-first comparison used by `ORDER BY created_at DESC`. -/
def rowLE (a b : Row) : Prop := b.createdAt ≤ a.createdAt

instance : DecidableRel rowLE := fun a b => Nat.decLe b.createdAt a.createdAt

instance : IsTotal Row rowLE := ⟨fun a b => (Nat.le_total a.createdAt b.createdAt).symm⟩

instance : IsTrans Row rowLE := ⟨fun _ _ _ h1 h2 => Nat.le_trans h2 h1⟩

/-- Sorting of a result set by `created_at DESC`. -/
def sortByCreatedAtDesc (l : List Row) : List Row :=
  List.insertionSort rowLE l

/-- Embedding of `insert(result, service)`: one INSERT statement that
stores `Math.round(result.duration)`, assigns the AUTOINCREMENT id and the
current timestamp, and whose `AFTER INSERT` trigger adds the (id, text)
document to the FTS index; returns the new state and `lastInsertRowid`. -/
def DB.insert (db : DB) (result : TranscriptionResult) (service : String) : DB × Nat :=
  let newId := db.nextId
  let row : Row := ⟨newId, result.text, result.language, jsRound result.duration,
    service, db.clock⟩
  (⟨db.rows ++ [row], db.fts ++ [(newId, result.text)], db.nextId + 1, db.clock + 1⟩,
    newId)

/-- Embedding of `delete(id)`: DELETE of the row with that primary key,
whose `AFTER DELETE` trigger removes the document with that rowid from the
FTS index in the same statement. -/
def DB.delete (db : DB) (idToDelete : Nat) : DB :=
  { db with
    rows := db.rows.filter (fun r => r.id ≠ idToDelete),
    fts := db.fts.filter (fun p => p.1 ≠ idToDelete) }

/-- Whitespace tokenisation of a document, character by character. -/
def tokenizeAux : List Char → List Char → List String
  | [], cur => [String.mk cur.reverse]
  | c :: rest, cur =>
      if c = ' ' then String.mk cur.reverse :: tokenizeAux rest []
      else tokenizeAux rest (c :: cur)

/-- FTS5 `MATCH` for a single-token query, with whitespace tokenisation. -/
def matchesQuery (q : String) (text : String) : Bool :=
  (tokenizeAux text.data []).contains q

/-- Embedding of `search(query, limit)`: rows joined with the FTS index on
`t.id = fts.rowid` where the document matches, ordered by
`created_at DESC`, limited. -/
def DB.search (db : DB) (q : String) (lim : Nat) : List Row :=
  (sortByCreatedAtDesc (db.rows.filter (fun r =>
    db.fts.any (fun p => p.1 == r.id && matchesQuery q p.2)))).take lim

/-- Embedding of `getRecent(limit)`: all rows ordered by
`created_at DESC`, limited. -/
def DB.getRecent (db : DB) (lim : Nat) : List Row :=
  (sortByCreatedAtDesc db.rows).take lim

/-- Embedding of `getById(id)`: the first row with that primary key. -/
def DB.getById (db : DB) (rowId : Nat) : Option Row :=
  db.rows.find? (fun r => r.id == rowId)

/-- Embedding of the `history:get` IPC handler:
`database.getRecent(limit || 50)` — the default 50 replaces a falsy limit,
i.e. an omitted one (`none`) or 0. -/
def historyGetHandler (db : DB) (limit : Option Nat) : List Row :=
  DB.getRecent db (match limit with
    | none => 50
    | some l => if l = 0 then 50 else l)

/-- C5: after `delete(k)`, a search on a token that occurred only in entry
k returns no result with id k, and the FTS index holds no document for
rowid k — table and index were updated in the same unit of work. -/
theorem C5_delete_search_sync (db : DB) (k : Nat) (tok : String) (lim : Nat)
    (h : ∀ p ∈ db.fts, matchesQuery tok p.2 = true → p.1 = k) :
    (∀ r ∈ (db.delete k).search tok lim, r.id ≠ k) ∧
    (∀ p ∈ (db.delete k).fts, p.1 ≠ k) := by
  constructor
  · intro r hr
    have h1 : r ∈ sortByCreatedAtDesc ((db.delete k).rows.filter (fun r =>
        (db.delete k).fts.any (fun p => p.1 == r.id && matchesQuery tok p.2))) :=
      List.take_subset _ _ hr
    have h2 : r ∈ (db.delete k).rows.filter (fun r =>
        (db.delete k).fts.any (fun p => p.1 == r.id && matchesQuery tok p.2)) := by
      have := (List.perm_insertionSort rowLE _).mem_iff.mp h1
      exact this
    have h3 : r ∈ (db.delete k).rows := (List.mem_filter.mp h2).1
    have h4 := (List.mem_filter.mp h3).2
    simpa using h4
  · intro p hp
    have h4 := (List.mem_filter.mp hp).2
    simpa using h4

/-- Witness for C5: two entries, the token `world` occurs only in entry 1;
after deleting entry 1 a search for `world` returns nothing with id 1. -/
theorem C5_witness :
    (∀ p ∈ (⟨[⟨1, "hello world", "en", 1200, "cloud", 10⟩,
        ⟨2, "foo bar", "en", 3, "cloud", 11⟩],
        [(1, "hello world"), (2, "foo bar")], 3, 12⟩ : DB).fts,
      matchesQuery "world" p.2 = true → p.1 = 1) ∧
    (∀ r ∈ DB.search (DB.delete ⟨[⟨1, "hello world", "en", 1200, "cloud", 10⟩,
        ⟨2, "foo bar", "en", 3, "cloud", 11⟩],
        [(1, "hello world"), (2, "foo bar")], 3, 12⟩ 1) "world" 50, r.id ≠ 1) := by
  refine ⟨by decide, ?_⟩
  exact (C5_delete_search_sync ⟨[⟨1, "hello world", "en", 1200, "cloud", 10⟩,
    ⟨2, "foo bar", "en", 3, "cloud", 11⟩],
    [(1, "hello world"), (2, "foo bar")], 3, 12⟩ 1 "world" 50 (by decide)).1

/-- C9: a `history:get` request with limit 0 is treated as the default 50
(the handler substitutes 50 for any falsy limit), returning the same
newest-first list as `getRecent(50)`: at most 50 entries, sorted by
`created_at` descending. -/
theorem C9_historyGet_zero_limit (db : DB) :
    historyGetHandler db (some 0) = db.getRecent 50 ∧
    historyGetHandler db none = db.getRecent 50 ∧
    (historyGetHandler db (some 0)).length ≤ 50 ∧
    List.Pairwise rowLE (historyGetHandler db (some 0)) := by
  refine ⟨rfl, rfl, ?_, ?_⟩
  · exact List.length_take_le 50 _
  · have hs : List.Pairwise rowLE (sortByCreatedAtDesc db.rows) :=
      List.sorted_insertionSort rowLE db.rows
    exact List.Pairwise.sublist (List.take_sublist _ _) hs

lemma find?_append_fresh (n : Nat) (row : Row) (hrow : row.id = n) :
    ∀ l : List Row, (∀ x ∈ l, x.id < n) →
      (l ++ [row]).find? (fun x : Row => x.id == n) = some row := by
  intro l
  induction l with
  | nil =>
      intro _
      simp [List.find?, hrow]
  | cons x xs ih =>
      intro h
      have hx : x.id ≠ n := Nat.ne_of_lt (h x (by simp))
      have hxs : ∀ y ∈ xs, y.id < n := fun y hy => h y (by simp [hy])
      simp only [List.cons_append, List.find?]
      rw [show (x.id == n) = false by simpa using hx]
      exact ih hxs

/-- C10: `insert` persists `Math.round` of the possibly fractional
millisecond duration, and `getById` on the returned id yields exactly that
integer (ids in the table stay below the AUTOINCREMENT counter). -/
theorem C10_insert_rounds_duration (db : DB) (r : TranscriptionResult) (svc : String)
    (h : ∀ row ∈ db.rows, row.id < db.nextId) :
    ∃ row : Row, (db.insert r svc).1.getById (db.insert r svc).2 = some row ∧
      row.duration = jsRound r.duration ∧
      row.text = r.text ∧ row.language = r.language ∧ row.service = svc := by
  refine ⟨⟨db.nextId, r.text, r.language, jsRound r.duration, svc, db.clock⟩,
    ?_, rfl, rfl, rfl, rfl⟩
  exact find?_append_fresh db.nextId _ rfl db.rows h

/-- Witness for C10 on an empty table, inserting a duration of 3/2 ms,
which is stored as the integer 2. -/
theorem C10_witness :
    (∀ row ∈ (⟨[], [], 1, 100⟩ : DB).rows, row.id < (⟨[], [], 1, 100⟩ : DB).nextId) ∧
    (∃ row : Row, ((⟨[], [], 1, 100⟩ : DB).insert ⟨"hi", "en", 3 / 2⟩ "cloud").1.getById
      ((⟨[], [], 1, 100⟩ : DB).insert ⟨"hi", "en", 3 / 2⟩ "cloud").2 = some row ∧
      row.duration = jsRound (3 / 2)) := by
  refine ⟨by simp, ?_⟩
  obtain ⟨row, h1, h2, _⟩ :=
    C10_insert_rounds_duration ⟨[], [], 1, 100⟩ ⟨"hi", "en", 3 / 2⟩ "cloud" (by simp)
  exact ⟨row, h1, h2⟩

end Parrot
